import Mathlib

/-!
Verification development for the autobooker deployment repository.

The file shallowly embeds the calendar service of
src/lib/performance-monitor.ts (lines 631-969), the conversation engine of
src/lib/notification-service.ts (lines 389-812) and the session handling of
the chat API route (src/unnamed/part_002), then proves or refutes the frozen
claims about them.

Conventions of the embedding:
- JavaScript Date values are modelled as Int milliseconds since the epoch,
  with the local time zone taken to be UTC (no claim depends on the offset).
- A JS value that can be a thrown exception is modelled with Except JsError.
- Provider calls (getEvents) are abstracted as an explicit parameter holding
  the events the event source would return.
-/

namespace Autobooker

/-- JavaScript runtime exceptions the embedded code can raise. -/
inductive JsError where
  | rangeError : JsError
  | typeError : JsError
deriving DecidableEq, Repr

deriving instance DecidableEq for Except

/-- Split on a single-character separator, as String.prototype.split does for
the separators - and : used by the embedded code. -/
def splitOnCharGo (sep : Char) : List Char → List Char → List (List Char)
  | [], acc => [acc.reverse]
  | c :: cs, acc =>
    if c == sep then acc.reverse :: splitOnCharGo sep cs []
    else splitOnCharGo sep cs (c :: acc)

/-- Split a string on a single-character separator. -/
def splitOnChar (sep : Char) (s : String) : List String :=
  (splitOnCharGo sep s.toList []).map String.mk

/-- Parse a nonempty all-digit string as a number, none otherwise. -/
def parseDigits (s : String) : Option Nat :=
  if s.length > 0 && s.toList.all Char.isDigit then
    some (s.toList.foldl (fun n c => n * 10 + (c.toNat - 48)) 0)
  else none

/-- Days from 1970-01-01 to the Gregorian date y-m-d (civil-days algorithm,
truncating division, all intermediate values nonnegative for valid dates). -/
def daysFromCivil (y m d : Int) : Int :=
  let y1 := if m ≤ 2 then y - 1 else y
  let era := (if 0 ≤ y1 then y1 else y1 - 399) / 400
  let yoe := y1 - era * 400
  let mp := (m + 9) % 12
  let doy := (153 * mp + 2) / 5 + d - 1
  let doe := yoe * 365 + yoe / 4 - yoe / 100 + doy
  era * 146097 + doe - 719468

/-- Model of new Date applied to a template string of shape
YYYY-MM-DDTHH:MM:00 as built at lines 794 and 907 of the calendar source.
Result is the millisecond time value; none models an Invalid Date, whose
getTime is NaN. The local zone is taken as UTC. -/
def jsDateFromParts (dateStr timeStr : String) : Option Int :=
  match splitOnChar '-' dateStr, splitOnChar ':' timeStr with
  | [ys, ms, ds], [hs, mins] =>
    match parseDigits ys, parseDigits ms, parseDigits ds, parseDigits hs, parseDigits mins with
    | some y, some mo, some d, some h, some mi =>
      if 1 ≤ mo ∧ mo ≤ 12 ∧ 1 ≤ d ∧ d ≤ 31 ∧ h ≤ 23 ∧ mi ≤ 59 then
        some ((daysFromCivil (Int.ofNat y) (Int.ofNat mo) (Int.ofNat d) * 86400
          + Int.ofNat h * 3600 + Int.ofNat mi * 60) * 1000)
      else none
    | _, _, _, _, _ => none
  | _, _ => none

/-- Model of new Date applied to a date-only string YYYY-MM-DD (line 743). -/
def jsDateOnly (dateStr : String) : Option Int :=
  match splitOnChar '-' dateStr with
  | [ys, ms, ds] =>
    match parseDigits ys, parseDigits ms, parseDigits ds with
    | some y, some mo, some d =>
      if 1 ≤ mo ∧ mo ≤ 12 ∧ 1 ≤ d ∧ d ≤ 31 then
        some (daysFromCivil (Int.ofNat y) (Int.ofNat mo) (Int.ofNat d) * 86400000)
      else none
    | _, _, _ => none
  | _ => none

/-- JS comparison date < bound where date may be an Invalid Date: every
comparison with NaN is false. -/
def jsLt (d : Option Int) (bound : Int) : Bool :=
  match d with
  | some v => decide (v < bound)
  | none => false

/-- JS comparison date > bound where date may be an Invalid Date. -/
def jsGt (d : Option Int) (bound : Int) : Bool :=
  match d with
  | some v => decide (v > bound)
  | none => false

/-! ## Calendar service data model (performance-monitor.ts lines 631-688) -/

/-- Status field of CalendarEvent (line 642). -/
inductive EventStatus where
  | confirmed | tentative | cancelled
deriving DecidableEq, Repr

/-- Source field of CalendarEvent (line 643). -/
inductive EventSource where
  | google | outlook | internal
deriving DecidableEq, Repr

/-- CalendarEvent (lines 634-644); start and «end» are millisecond time
values; the optional presentation fields description, location and attendees
are not read by any embedded operation and are omitted. -/
structure CalendarEvent where
  id : String
  title : String
  start : Int
  «end» : Int
  status : EventStatus
  source : EventSource
deriving DecidableEq, Repr

/-- TimeSlot (lines 646-651). -/
structure TimeSlot where
  start : Int
  «end» : Int
  available : Bool
  conflictsWith : List String
deriving DecidableEq, Repr

/-- One value of the businessHours object: open and close wall-clock strings,
null modelled as none (lines 654-656). -/
structure DayHours where
  «open» : Option String
  close : Option String
deriving DecidableEq, Repr

/-- CalendarConfig (lines 653-661); businessHours is a string-keyed object,
modelled as an association list in insertion order. -/
structure CalendarConfig where
  businessHours : List (String × DayHours)
  timezone : String
  bufferMinutes : Int
  advanceBookingDays : Int
  maxBookingDays : Int
deriving DecidableEq, Repr

/-- Partial CalendarConfig as accepted by the constructor and updateConfig:
each field optionally present. -/
structure PartialCalendarConfig where
  businessHours : Option (List (String × DayHours)) := none
  timezone : Option String := none
  bufferMinutes : Option Int := none
  advanceBookingDays : Option Int := none
  maxBookingDays : Option Int := none
deriving DecidableEq, Repr

/-- Object spread of a partial configuration over a full one, as in
lines 696 and 968: fields present in the partial overwrite, others stay. -/
def mergeConfig (base : CalendarConfig) (p : PartialCalendarConfig) : CalendarConfig :=
  { businessHours := p.businessHours.getD base.businessHours
    timezone := p.timezone.getD base.timezone
    bufferMinutes := p.bufferMinutes.getD base.bufferMinutes
    advanceBookingDays := p.advanceBookingDays.getD base.advanceBookingDays
    maxBookingDays := p.maxBookingDays.getD base.maxBookingDays }

/-- DEFAULT_CONFIG (lines 674-688). -/
def DEFAULT_CONFIG : CalendarConfig :=
  { businessHours :=
      [ ("monday", ⟨some "09:00", some "18:00"⟩)
      , ("tuesday", ⟨some "09:00", some "18:00"⟩)
      , ("wednesday", ⟨some "09:00", some "18:00"⟩)
      , ("thursday", ⟨some "09:00", some "18:00"⟩)
      , ("friday", ⟨some "09:00", some "17:00"⟩)
      , ("saturday", ⟨some "09:00", some "13:00"⟩)
      , ("sunday", ⟨none, none⟩) ]
    timezone := "Europe/Paris"
    bufferMinutes := 15
    advanceBookingDays := 1
    maxBookingDays := 60 }

/-- BookingRequest (lines 663-672). -/
structure BookingRequest where
  date : String
  time : String
  duration : Int
  title : String
  description : Option String
  clientEmail : Option String
  clientPhone : Option String
  serviceType : String
deriving DecidableEq, Repr

/-- The CalendarService instance state: its config and the externally
configured calendar ids (lines 690-697). -/
structure CalendarService where
  config : CalendarConfig
  googleCalendarId : Option String
  outlookCalendarId : Option String
deriving DecidableEq, Repr

/-- The constructor (lines 695-697): spread of the partial argument over
DEFAULT_CONFIG; no calendar id configured yet. -/
def mkCalendarService (config : PartialCalendarConfig) : CalendarService :=
  { config := mergeConfig DEFAULT_CONFIG config
    googleCalendarId := none
    outlookCalendarId := none }

/-- configureGoogleCalendar (lines 700-702). -/
def CalendarService.configureGoogleCalendar (s : CalendarService) (calendarId : String) : CalendarService :=
  { s with googleCalendarId := some calendarId }

/-- configureOutlookCalendar (lines 704-706). -/
def CalendarService.configureOutlookCalendar (s : CalendarService) (calendarId : String) : CalendarService :=
  { s with outlookCalendarId := some calendarId }

/-- updateConfig (lines 967-969): unvalidated shallow merge of the partial
argument over the current config. -/
def CalendarService.updateConfig (s : CalendarService) (newConfig : PartialCalendarConfig) : CalendarService :=
  { s with config := mergeConfig s.config newConfig }

/-- getConfig (lines 962-964). -/
def CalendarService.getConfig (s : CalendarService) : CalendarConfig := s.config

/-- Lookup on a string-keyed JS object modelled as an association list. -/
def objLookup (o : List (String × DayHours)) (k : String) : Option DayHours :=
  (o.find? (fun p => p.1 == k)).map Prod.snd

/-- Model of date.toLocaleDateString applied with locale en-US and the options
object whose weekday value is the string lowercase (lines 744 and 922).
Per ECMA-402, toLocaleDateString first returns the plain string Invalid Date
when the receiver's time value is NaN, before any option processing; for a
valid time value it constructs a DateTimeFormat, whose GetOption admits
exactly narrow, short and long for the weekday component, so the invalid
value lowercase makes the construction throw a RangeError. Hence: the string
Invalid Date for a NaN receiver, a thrown RangeError for every valid one. -/
def toLocaleWeekdayLowercase (dateMs : Option Int) : Except JsError String :=
  match dateMs with
  | none => .ok ("Invalid Date")
  | some _ => .error .rangeError

/-- findConflicts (lines 897-903): ids of the events whose interval strictly
overlaps the slot interval. -/
def findConflicts (slotStart slotEnd : Int) (existingEvents : List CalendarEvent) : List String :=
  (existingEvents.filter
    (fun event => decide (slotStart < event.«end» ∧ slotEnd > event.start))).map
    (fun event => event.id)

/-- One step of the while loop of getAvailableSlots (lines 765-779).
The fuel argument only bounds the iteration count so that the definition is
structural; slotLoop_fuel_irrelevant shows any fuel at least
(dayEnd - currentTime).toNat + 1 gives the same list when the interval is
positive and the duration nonnegative, which is exactly the termination of
the source loop. -/
def slotLoop (dayEnd duration slotInterval : Int) (existingEvents : List CalendarEvent) :
    Nat → Int → List TimeSlot
  | 0, _ => []
  | fuel + 1, currentTime =>
    if currentTime + duration * 60000 ≤ dayEnd then
      let slotEnd := currentTime + duration * 60000
      let conflicts := findConflicts currentTime slotEnd existingEvents
      { start := currentTime
        «end» := slotEnd
        available := conflicts.length == 0
        conflictsWith := conflicts }
        :: slotLoop dayEnd duration slotInterval existingEvents fuel (currentTime + slotInterval * 60000)
    else []

/-- The slot generation block of getAvailableSlots (lines 763-782): all slots
from dayStart stepping by slotInterval whose end does not pass dayEnd, each
checked against the events of the day. -/
def generateSlots (dayStart dayEnd duration slotInterval : Int)
    (existingEvents : List CalendarEvent) : List TimeSlot :=
  slotLoop dayEnd duration slotInterval existingEvents ((dayEnd - dayStart).toNat + 1) dayStart

/-- Split a wall-clock string HH:MM into hour and minute numbers as
parseInt does at lines 753 and 757 (well-formed inputs; this code path is
unreachable, see getAvailableSlots). -/
def splitClock (s : String) : Int × Int :=
  match splitOnChar ':' s with
  | [hs, ms] => (Int.ofNat ((parseDigits hs).getD 0), Int.ofNat ((parseDigits ms).getD 0))
  | _ => (0, 0)

/-- Model of setHours h m 0 0 on a date value: rewind to local midnight and
add the wall-clock offset (lines 752-758). -/
def setHoursMs (dateMs : Option Int) (h m : Int) : Option Int :=
  dateMs.map (fun t => t - t % 86400000 + h * 3600000 + m * 60000)

/-- getAvailableSlots (lines 738-782). fetchedEvents stands for the response
of the getEvents provider call at line 761. For every parseable date string
the weekday computation at line 744, passed the invalid option value
lowercase, throws a RangeError before the business hours are read. For an
unparseable date it returns the string Invalid Date instead, and the lookup
businessHours of that key either yields undefined, whose open access throws a
TypeError, or an actual entry, in which case the day bounds carry NaN time
values, the falsy test of line 747 covers null and the empty string, and the
while guard of line 767 compares against NaN and is false at once, so the
empty list is returned without generating any slot. -/
def getAvailableSlots (s : CalendarService) (fetchedEvents : List CalendarEvent)
    (date : String) (duration slotInterval : Int) : Except JsError (List TimeSlot) := do
  let targetDate := jsDateOnly date
  let dayOfWeek ← toLocaleWeekdayLowercase targetDate
  match objLookup s.config.businessHours dayOfWeek with
  | none => .error .typeError
  | some businessHours =>
    match businessHours.«open», businessHours.close with
    | some openStr, some closeStr =>
      if openStr.isEmpty || closeStr.isEmpty then
        pure []
      else
        let (openHour, openMinute) := splitClock openStr
        let dayStart := setHoursMs targetDate openHour openMinute
        let (closeHour, closeMinute) := splitClock closeStr
        let dayEnd := setHoursMs targetDate closeHour closeMinute
        match dayStart, dayEnd with
        | some ds, some de => pure (generateSlots ds de duration slotInterval fetchedEvents)
        | _, _ => pure []
    | _, _ => pure []

/-- Result object of validateBookingRequest (lines 905-943). -/
structure ValidationResult where
  valid : Bool
  error : Option String
deriving DecidableEq, Repr

/-- Error message of the minimum-advance check (line 912). -/
def advanceErrorMsg (advanceBookingDays : Int) : String :=
  "Vous devez réserver au moins " ++ toString advanceBookingDays ++ " jour(s) à l\x27avance"

/-- Error message of the maximum-horizon check (line 918). -/
def horizonErrorMsg (maxBookingDays : Int) : String :=
  "Vous ne pouvez pas réserver plus de " ++ toString maxBookingDays ++ " jours à l\x27avance"

/-- Error message of the closed-day check (line 926). -/
def closedDayErrorMsg : String := "Nous sommes fermés ce jour-là"

/-- Error message of the business-hours check (line 939). -/
def hoursErrorMsg (openStr closeStr : String) : String :=
  "Les horaires disponibles sont de " ++ openStr ++ " à " ++ closeStr

/-- validateBookingRequest (lines 905-943). nowMs models Date.now at line
908. Checks run in source order: minimum advance, maximum horizon, then the
weekday computation of line 922, which throws a RangeError (invalid weekday
option value lowercase) for every parseable request date, making the
closed-day and business-hours checks of lines 925-940 unreachable on that
path. For an unparseable request date the NaN window comparisons are both
false and the weekday is the string Invalid Date, so those checks do run
against a businessHours entry of that key; the falsy test of line 925 covers
null and the empty string. -/
def validateBookingRequest (config : CalendarConfig) (nowMs : Int)
    (request : BookingRequest) : Except JsError ValidationResult :=
  let requestDate := jsDateFromParts request.date request.time
  let minBookingTime := nowMs + config.advanceBookingDays * 24 * 60 * 60 * 1000
  if jsLt requestDate minBookingTime then
    pure { valid := false, error := some (advanceErrorMsg config.advanceBookingDays) }
  else
    let maxBookingTime := nowMs + config.maxBookingDays * 24 * 60 * 60 * 1000
    if jsGt requestDate maxBookingTime then
      pure { valid := false, error := some (horizonErrorMsg config.maxBookingDays) }
    else do
      let dayOfWeek ← toLocaleWeekdayLowercase requestDate
      match objLookup config.businessHours dayOfWeek with
      | none => .error .typeError
      | some businessHours =>
        match businessHours.«open», businessHours.close with
        | some openStr, some closeStr =>
          if openStr.isEmpty || closeStr.isEmpty then
            pure { valid := false, error := some closedDayErrorMsg }
          else
            let (requestHour, requestMinute) := splitClock request.time
            let (openHour, openMinute) := splitClock openStr
            let (closeHour, closeMinute) := splitClock closeStr
            let requestMinutes := requestHour * 60 + requestMinute
            let openMinutes := openHour * 60 + openMinute
            let closeMinutes := closeHour * 60 + closeMinute
            let endMinutes := requestMinutes + request.duration
            if requestMinutes < openMinutes ∨ endMinutes > closeMinutes then
              pure { valid := false, error := some (hoursErrorMsg openStr closeStr) }
            else
              pure { valid := true, error := none }
        | _, _ =>
          pure { valid := false, error := some closedDayErrorMsg }

/-- Result object of createBooking (line 785). -/
structure BookingResult where
  success : Bool
  eventId : Option String
  error : Option String
deriving DecidableEq, Repr

/-- Catch-all error message of createBooking (line 829). -/
def technicalErrorMsg : String := "Erreur technique lors de la réservation"

/-- buildEventDescription (lines 945-959). -/
def buildEventDescription (request : BookingRequest) : String :=
  let d1 := "Service: " ++ request.serviceType ++ "\nDurée: " ++ toString request.duration ++ " minutes"
  let d2 := match request.description with
    | some notes => d1 ++ "\n\nNotes: " ++ notes
    | none => d1
  let d3 := match request.clientPhone with
    | some phone => d2 ++ "\n\nTéléphone: " ++ phone
    | none => d2
  d3 ++ "\n\nRéservé via AutoBooker AI"

/-- createBooking (lines 785-831). nowMs models Date.now and randSuffix the
random id suffix of line 823. The try block covers the whole body, so the
RangeError thrown by validateBookingRequest for every parseable request date
lands in the catch block of lines 827-830 and becomes the generic technical
failure. No conflict check against existing events appears anywhere in this
function: findConflicts is only called from getAvailableSlots, and
createBooking reads no event at all, which is why its embedding takes no
event input. -/
def createBooking (s : CalendarService) (nowMs : Int) (randSuffix : String)
    (request : BookingRequest) : BookingResult :=
  match validateBookingRequest s.config nowMs request with
  | .error _ => { success := false, eventId := none, error := some technicalErrorMsg }
  | .ok validation =>
    if !validation.valid then
      { success := false, eventId := none, error := validation.error }
    else
      match s.googleCalendarId with
      | some _ => { success := true, eventId := some ("google_" ++ toString nowMs), error := none }
      | none =>
        match s.outlookCalendarId with
        | some _ => { success := true, eventId := some ("outlook_" ++ toString nowMs), error := none }
        | none =>
          { success := true
            eventId := some ("mock_" ++ toString nowMs ++ "_" ++ randSuffix)
            error := none }

/-! ## Conversation engine data model (notification-service.ts lines 389-455) -/

/-- Role of a message in the conversation history (line 396). -/
inductive Role where
  | user | assistant
deriving DecidableEq, Repr

/-- One entry of the context message history (line 396). -/
structure ChatMessage where
  role : Role
  content : String
  timestamp : Int
deriving DecidableEq, Repr

/-- Intent type union (line 404). -/
inductive IntentType where
  | prise_rdv | modifier_rdv | annuler_rdv | info_service | heures_ouverture | salutation | autre
deriving DecidableEq, Repr

/-- One extracted entity (line 406); confidence is kept in hundredths of the
source floating point literals, and is read by no embedded operation. -/
structure Entity where
  type : String
  value : String
  confidence : Int
deriving DecidableEq, Repr

/-- Intent (lines 403-407). -/
structure Intent where
  type : IntentType
  confidence : Int
  entities : List Entity
deriving DecidableEq, Repr

/-- Slots (lines 409-419): absent object keys are none. -/
structure Slots where
  date : Option String := none
  time : Option String := none
  duration : Option Int := none
  serviceType : Option String := none
  clientName : Option String := none
  clientEmail : Option String := none
  clientPhone : Option String := none
  location : Option String := none
  notes : Option String := none
deriving DecidableEq, Repr

/-- UserPreferences (lines 421-426). -/
structure UserPreferences where
  preferredTimeSlots : List String
  preferredServices : List String
  communicationChannel : String
  language : String
deriving DecidableEq, Repr

/-- ConversationStage (lines 428-435). -/
inductive ConversationStage where
  | greeting | intent_detection | slot_gathering | slot_confirmation
  | proposal_generation | booking_confirmation | completion
deriving DecidableEq, Repr

/-- ConversationContext (lines 394-401). -/
structure ConversationContext where
  sessionId : String
  messages : List ChatMessage
  currentIntent : Option Intent
  extractedSlots : Slots
  conversationStage : ConversationStage
  userPreferences : Option UserPreferences
deriving DecidableEq, Repr

/-! ## String scanning used by intent detection and entity extraction -/

/-- Model of String.toLowerCase restricted to ASCII letters. Every keyword the
engine compares against is either pure ASCII or already lowercase in the
source, and the concrete messages studied below only exercise ASCII case. -/
def asciiToLower (s : String) : String :=
  String.mk (s.toList.map (fun c => if 'A' ≤ c ∧ c ≤ 'Z' then Char.ofNat (c.toNat + 32) else c))

/-- Does the character list start with the given pattern. -/
def startsWithChars : List Char → List Char → Bool
  | _, [] => true
  | [], _ :: _ => false
  | c :: cs, p :: ps => c == p && startsWithChars cs ps

/-- Model of String.includes: the pattern occurs contiguously in the list. -/
def containsChars : List Char → List Char → Bool
  | [], pat => pat.isEmpty
  | c :: cs, pat => startsWithChars (c :: cs) pat || containsChars cs pat

/-- Model of message.includes(pat) on strings. -/
def jsIncludes (s pat : String) : Bool := containsChars s.toList pat.toList

/-- Up to two leading decimal digits, greedily. -/
def takeUpTo2Digits : List Char → List Char × List Char
  | [] => ([], [])
  | c :: cs =>
    if c.isDigit then
      match cs with
      | c2 :: cs2 => if c2.isDigit then ([c, c2], cs2) else ([c], cs)
      | [] => ([c], [])
    else ([], c :: cs)

/-- The optional [h:] separator of the time regex. -/
def dropTimeSep : List Char → List Char
  | c :: cs => if c == 'h' || c == ':' then cs else c :: cs
  | [] => []

/-- All matches of the global regex of line 616, (\d{1,2})[h:]?(\d{0,2}),
as (hour digits, minute digits) pairs: exec finds the leftmost match, which
must start at a digit since everything after the first group is optional, the
three parts are matched greedily with no possible backtracking, and scanning
resumes right after each match. The fuel argument makes the recursion
structural; a match consumes at least one character, so the wrapper passes
the list length. -/
def timeScanGo (fuel : Nat) (cs : List Char) : List (List Char × List Char) :=
  match fuel, cs with
  | 0, _ => []
  | _ + 1, [] => []
  | fuel + 1, c :: cs =>
    if c.isDigit then
      let (hourDigits, r1) := takeUpTo2Digits (c :: cs)
      let r2 := dropTimeSep r1
      let (minuteDigits, r3) := takeUpTo2Digits r2
      (hourDigits, minuteDigits) :: timeScanGo fuel r3
    else timeScanGo fuel cs

/-- All time regex matches of a message. -/
def timeScan (cs : List Char) : List (List Char × List Char) := timeScanGo cs.length cs

/-- Character class [a-zA-Z0-9._%+-] of the email regex local part. -/
def isLocalChar (c : Char) : Bool :=
  c.isAlpha || c.isDigit || c == '.' || c == '_' || c == '%' || c == '+' || c == '-'

/-- Character class [a-zA-Z0-9.-] of the email regex domain part. -/
def isDomainChar (c : Char) : Bool :=
  c.isAlpha || c.isDigit || c == '.' || c == '-'

/-- Longest leading run of characters satisfying p, with the rest. -/
def takeRun (p : Char → Bool) : List Char → List Char × List Char
  | [] => ([], [])
  | c :: cs =>
    if p c then
      let (r, rest) := takeRun p cs
      (c :: r, rest)
    else ([], c :: cs)

/-- Backtracking of the email regex domain: split the greedy domain run at the
rightmost dot that is followed by at least two letters, returning the part
before the dot and the part after it. -/
def lastDotSplit : List Char → Option (List Char × List Char)
  | [] => none
  | c :: cs =>
    match lastDotSplit cs with
    | some (d, rest) => some (c :: d, rest)
    | none =>
      if c == '.' then
        match cs with
        | a :: b :: _ => if a.isAlpha && b.isAlpha then some ([], cs) else none
        | _ => none
      else none

/-- Attempt of the email regex [a-zA-Z0-9._%+-]+@[a-zA-Z0-9.-]+\.[a-zA-Z]{2,}
of line 645 at the head of the list. The local part is the greedy local-class
run (its class excludes the at sign, so it never backtracks); the domain part
backtracks from the greedy domain-class run to the longest prefix followed by
a literal dot and at least two letters; the final letter group is greedy. -/
def matchEmailAt (cs : List Char) : Option (List Char) :=
  let (localPart, r1) := takeRun isLocalChar cs
  match localPart, r1 with
  | _ :: _, '@' :: r2 =>
    let (domainRun, _) := takeRun isDomainChar r2
    match lastDotSplit domainRun with
    | some (d, rest) =>
      if d.isEmpty then none
      else
        let (tld, _) := takeRun (fun c => c.isAlpha) rest
        some (localPart ++ '@' :: (d ++ '.' :: tld))
    | none => none
  | _, _ => none

/-- First email regex match in the message (the code reads only match[0]). -/
def emailScan : List Char → Option String
  | [] => none
  | c :: cs =>
    match matchEmailAt (c :: cs) with
    | some m => some (String.mk m)
    | none => emailScan cs

/-- Character class [1-9]. -/
def isDigit19 (c : Char) : Bool := '1' ≤ c && c ≤ '9'

/-- Exactly n decimal digits from the front. -/
def takeExactDigits : Nat → List Char → Option (List Char)
  | 0, _ => some []
  | n + 1, c :: cs => if c.isDigit then (takeExactDigits n cs).map (c :: ·) else none
  | _ + 1, [] => none

/-- Attempt of the phone regex (?:(?:\+33|0)[1-9])(?:[0-9]{8}) of line 652 at
the head of the list; the alternation branches start with distinct characters
so no backtracking arises. -/
def matchPhoneAt (cs : List Char) : Option (List Char) :=
  match cs with
  | '+' :: '3' :: '3' :: c :: rest =>
    if isDigit19 c then (takeExactDigits 8 rest).map (fun ds => '+' :: '3' :: '3' :: c :: ds)
    else none
  | '0' :: c :: rest =>
    if isDigit19 c then (takeExactDigits 8 rest).map (fun ds => '0' :: c :: ds)
    else none
  | _ => none

/-- First phone regex match in the message (the code reads only match[0]). -/
def phoneScan : List Char → Option String
  | [] => none
  | c :: cs =>
    match matchPhoneAt (c :: cs) with
    | some m => some (String.mk m)
    | none => phoneScan cs

/-! ## Conversation engine operations (notification-service.ts lines 457-812) -/

/-- extractEntitiesFromMessage (lines 588-625): the fixed date keywords in
source order, then every time regex match, the empty minute group defaulting
to 00. -/
def extractEntitiesFromMessage (message : String) : List Entity :=
  let lowerMessage := asciiToLower message
  let dateEntities :=
    (if jsIncludes lowerMessage ("demain") then [⟨"date", "demain", 90⟩] else [])
    ++ (if jsIncludes lowerMessage ("aujourd\x27hui") then [⟨"date", "aujourd\x27hui", 90⟩] else [])
    ++ (if jsIncludes lowerMessage ("lundi") then [⟨"date", "lundi", 80⟩] else [])
    ++ (if jsIncludes lowerMessage ("mardi") then [⟨"date", "mardi", 80⟩] else [])
    ++ (if jsIncludes lowerMessage ("mercredi") then [⟨"date", "mercredi", 80⟩] else [])
    ++ (if jsIncludes lowerMessage ("jeudi") then [⟨"date", "jeudi", 80⟩] else [])
    ++ (if jsIncludes lowerMessage ("vendredi") then [⟨"date", "vendredi", 80⟩] else [])
  let timeEntities := (timeScan message.toList).map (fun m =>
    let minute := if m.2.isEmpty then ['0', '0'] else m.2
    (⟨"time", String.mk (m.1 ++ ':' :: minute), 85⟩ : Entity))
  dateEntities ++ timeEntities

/-- detectIntent (lines 513-586): keyword classification over the lowercased
message; the try block has no failing operation, so the catch branch of lines
578-585 is dead and not modelled. -/
def detectIntent (message : String) : Intent :=
  let lowerMessage := asciiToLower message
  if jsIncludes lowerMessage ("rdv") || jsIncludes lowerMessage ("rendez-vous")
      || jsIncludes lowerMessage ("réserver") || jsIncludes lowerMessage ("prendre") then
    { type := .prise_rdv, confidence := 90, entities := extractEntitiesFromMessage message }
  else if jsIncludes lowerMessage ("modifier") || jsIncludes lowerMessage ("changer")
      || jsIncludes lowerMessage ("déplacer") then
    { type := .modifier_rdv, confidence := 85, entities := extractEntitiesFromMessage message }
  else if jsIncludes lowerMessage ("annuler") || jsIncludes lowerMessage ("supprimer") then
    { type := .annuler_rdv, confidence := 90, entities := [] }
  else if jsIncludes lowerMessage ("horaire") || jsIncludes lowerMessage ("ouvert")
      || jsIncludes lowerMessage ("ferme") then
    { type := .heures_ouverture, confidence := 80, entities := [] }
  else if jsIncludes lowerMessage ("bonjour") || jsIncludes lowerMessage ("salut")
      || jsIncludes lowerMessage ("bonsoir") then
    { type := .salutation, confidence := 95, entities := [] }
  else
    { type := .autre, confidence := 50, entities := [] }

/-- The switch statement of the entity loop (lines 633-641): a date entity
sets the date field, a time entity the time field, anything else is skipped. -/
def applyEntity (acc : Slots) (entity : Entity) : Slots :=
  if entity.type == "date" then { acc with date := some entity.value }
  else if entity.type == "time" then { acc with time := some entity.value }
  else acc

/-- extractSlots (lines 627-659): the switch over the entities of the current
intent, then the first email match and the first French phone match of the
raw message. Only date, time, clientEmail and clientPhone can ever be set. -/
def extractSlots (currentIntent : Option Intent) (message : String) : Slots :=
  let s0 : Slots := {}
  let s1 := match currentIntent with
    | some intent => intent.entities.foldl applyEntity s0
    | none => s0
  let s2 := match emailScan message.toList with
    | some email => { s1 with clientEmail := some email }
    | none => s1
  match phoneScan message.toList with
  | some phone => { s2 with clientPhone := some phone }
  | none => s2

/-- Object spread of the new partial slots over the accumulated slots
(line 488): keys present in the new object overwrite, all others persist. -/
def mergeSlots (older newer : Slots) : Slots :=
  { date := (newer.date).orElse fun _ => older.date
    time := (newer.time).orElse fun _ => older.time
    duration := (newer.duration).orElse fun _ => older.duration
    serviceType := (newer.serviceType).orElse fun _ => older.serviceType
    clientName := (newer.clientName).orElse fun _ => older.clientName
    clientEmail := (newer.clientEmail).orElse fun _ => older.clientEmail
    clientPhone := (newer.clientPhone).orElse fun _ => older.clientPhone
    location := (newer.location).orElse fun _ => older.location
    notes := (newer.notes).orElse fun _ => older.notes }

/-- JS truthiness of an optional string field: absent and empty are falsy. -/
def jsTruthyStr : Option String → Bool
  | some s => !s.isEmpty
  | none => false

/-- JS expression x or-else dflt for numbers: absence and 0 are falsy. -/
def jsOrNum (x : Option Int) (dflt : Int) : Int :=
  match x with
  | some v => if v == 0 then dflt else v
  | none => dflt

/-- JS expression x or-else dflt for strings: absence and the empty string
are falsy. -/
def jsOrStr (x : Option String) (dflt : String) : String :=
  match x with
  | some v => if v.isEmpty then dflt else v
  | none => dflt

/-- hasAllRequiredSlots (lines 788-790): double negation of slots.date and
slots.time, so presence means JS-truthy. -/
def hasAllRequiredSlots (slots : Slots) : Bool :=
  jsTruthyStr slots.date && jsTruthyStr slots.time

/-- getMissingRequiredSlots (lines 706-709): of the required names date and
time, those whose field is falsy, in that order. -/
def getMissingRequiredSlots (slots : Slots) : List String :=
  (if jsTruthyStr slots.date then [] else ["date"])
    ++ (if jsTruthyStr slots.time then [] else ["time"])

/-- askForMissingSlots (lines 711-721). -/
def askForMissingSlots (missingSlots : List String) : String :=
  if missingSlots.contains ("date") then
    "Pour quel jour souhaitez-vous prendre rendez-vous ? Vous pouvez me dire par exemple \"demain\", \"vendredi prochain\" ou une date précise."
  else if missingSlots.contains ("time") then
    "À quelle heure préféreriez-vous ? Par exemple \"14h30\" ou \"en fin de matinée\"."
  else
    "Pouvez-vous me préciser la date et l\x27heure souhaitées pour votre rendez-vous ?"

/-- Template rendering of a possibly undefined field (template literals print
the word undefined for an absent value). -/
def jsShowOpt (o : Option String) : String := o.getD ("undefined")

/-- generateTimeSlotProposals (lines 723-747) with its hardcoded mock slots. -/
def generateTimeSlotProposals (slots : Slots) : String :=
  let availableSlots := [("09:00", true), ("10:30", true), ("14:00", false), ("15:30", true), ("16:30", true)]
  let available := availableSlots.filter (fun sl => sl.2)
  if available.length == 0 then
    "Désolé, aucun créneau n\x27est disponible pour cette date. Pouvez-vous choisir une autre date ?"
  else
    "Voici les créneaux disponibles pour " ++ jsShowOpt slots.date ++ " :\n\n"
      ++ String.join (available.enum.map (fun p => toString (p.1 + 1) ++ ". " ++ p.2.1 ++ "\n"))
      ++ "\nQuel créneau vous convient le mieux ? Répondez simplement par le numéro ou l\x27heure."

/-- handleBookingIntent (lines 695-704). -/
def handleBookingIntent (slots : Slots) (_stage : ConversationStage) : String :=
  let missingSlots := getMissingRequiredSlots slots
  if missingSlots.length > 0 then askForMissingSlots missingSlots
  else generateTimeSlotProposals slots

/-- Default reply of generateResponse (lines 690-691). -/
def fallbackReply : String :=
  "Je ne suis pas sûr de comprendre. Pouvez-vous me dire si vous souhaitez prendre un rendez-vous, connaître nos horaires, ou avez-vous une autre question ?"

/-- generateResponse (lines 661-693): switch on the current intent type; the
cases modifier_rdv, annuler_rdv and autre fall to the default reply, as does
an undefined intent. -/
def generateResponse (ctx : ConversationContext) : String :=
  match ctx.currentIntent with
  | some intent =>
    match intent.type with
    | .salutation =>
      "Bonjour ! Je suis votre assistant AutoBooker. Je peux vous aider à prendre, modifier ou annuler un rendez-vous. Comment puis-je vous aider aujourd\x27hui ?"
    | .prise_rdv => handleBookingIntent ctx.extractedSlots ctx.conversationStage
    | .heures_ouverture =>
      "Nos horaires d\x27ouverture sont :\n\n📅 Lundi à Jeudi : 9h00 - 18h00\n📅 Vendredi : 9h00 - 17h00\n📅 Samedi : 9h00 - 13h00\n📅 Dimanche : Fermé\n\nSouhaitez-vous prendre un rendez-vous ?"
    | .info_service =>
      "Voici nos services disponibles :\n\n🩺 Consultation standard (60 min)\n🩺 Consultation approfondie (90 min)\n🩺 Rendez-vous de suivi (30 min)\n🩺 Consultation urgente (45 min)\n💻 Téléconsultation (30 min)\n\nQuel type de rendez-vous souhaitez-vous ?"
    | _ => fallbackReply
  | none => fallbackReply

/-- Payload of a create_booking action (lines 756-767). -/
structure BookingActionData where
  date : Option String
  time : Option String
  duration : Int
  service : String
  clientEmail : Option String
  clientPhone : Option String
  notes : Option String
deriving DecidableEq, Repr

/-- Payload of a send_confirmation_email action (lines 771-782). -/
structure ConfirmationEmailData where
  email : String
  date : Option String
  time : Option String
  service : String
deriving DecidableEq, Repr

/-- The actions the engine can emit (lines 749-786). -/
inductive Action where
  | create_booking (data : BookingActionData)
  | send_confirmation_email (data : ConfirmationEmailData)
deriving DecidableEq, Repr

/-- Is the action a create_booking action. -/
def isCreateBooking : Action → Bool
  | .create_booking _ => true
  | _ => false

/-- Is the action a send_confirmation_email action. -/
def isConfirmationEmail : Action → Bool
  | .send_confirmation_email _ => true
  | _ => false

/-- The optional-chain comparison intent?.type === prise_rdv of line 755:
false for an undefined intent. -/
def currentIntentIsBooking : Option Intent → Bool
  | some intent => intent.type == IntentType.prise_rdv
  | none => false

/-- determineActions (lines 749-786): a booking action whenever the intent is
prise_rdv and both required slots are truthy, and additionally a confirmation
email action whenever clientEmail is truthy; no other condition is tested. -/
def determineActions (ctx : ConversationContext) : List Action :=
  let slots := ctx.extractedSlots
  if currentIntentIsBooking ctx.currentIntent && hasAllRequiredSlots slots then
    Action.create_booking
      { date := slots.date
        time := slots.time
        duration := jsOrNum slots.duration 60
        service := jsOrStr slots.serviceType ("consultation")
        clientEmail := slots.clientEmail
        clientPhone := slots.clientPhone
        notes := slots.notes }
      :: (if jsTruthyStr slots.clientEmail then
            [Action.send_confirmation_email
              { email := (slots.clientEmail).getD ""
                date := slots.date
                time := slots.time
                service := jsOrStr slots.serviceType ("consultation") }]
          else [])
  else []

/-- updateConversationStage (lines 792-807). -/
def updateConversationStage (currentIntent : Option Intent) (slots : Slots) : ConversationStage :=
  match currentIntent with
  | some intent =>
    if intent.type == IntentType.salutation then .greeting
    else if intent.type == IntentType.prise_rdv then
      (if hasAllRequiredSlots slots then .booking_confirmation else .slot_gathering)
    else .intent_detection
  | none => .intent_detection

/-- Return shape of processMessage (lines 470-474). -/
structure ProcessResult where
  response : String
  context : ConversationContext
  actions : List Action
deriving DecidableEq, Repr

/-- processMessage (lines 470-511) as a pure step function; ts models the
new Date timestamps of the two pushed messages. The steps follow the source
order: push the user message, detect the intent, set currentIntent, extract
slots from the message, spread-merge them into the accumulated slots,
generate the reply from the updated context (still under the previous stage),
determine the actions, recompute the stage, push the assistant reply. -/
def processMessage (ctx : ConversationContext) (userMessage : String) (ts : Int) : ProcessResult :=
  let ctx1 := { ctx with messages := ctx.messages ++ [({ role := .user, content := userMessage, timestamp := ts } : ChatMessage)] }
  let intent := detectIntent userMessage
  let ctx2 := { ctx1 with currentIntent := some intent }
  let newSlots := extractSlots ctx2.currentIntent userMessage
  let ctx3 := { ctx2 with extractedSlots := mergeSlots ctx2.extractedSlots newSlots }
  let response := generateResponse ctx3
  let actions := determineActions ctx3
  let ctx4 := { ctx3 with conversationStage := updateConversationStage ctx3.currentIntent ctx3.extractedSlots }
  let ctx5 := { ctx4 with messages := ctx4.messages ++ [({ role := .assistant, content := response, timestamp := ts } : ChatMessage)] }
  { response := response, context := ctx5, actions := actions }

/-- The AIOrchestrator constructor (lines 460-468): fresh fields when no
existing context is supplied; currentIntent is left undefined either way. -/
def mkOrchestratorContext (sessionId : String) (existing : Option ConversationContext) : ConversationContext :=
  { sessionId := sessionId
    messages := match existing with | some e => e.messages | none => []
    currentIntent := none
    extractedSlots := match existing with | some e => e.extractedSlots | none => ({} : Slots)
    conversationStage := match existing with | some e => e.conversationStage | none => .greeting
    userPreferences := match existing with | some e => e.userPreferences | none => none }

/-! ## Session store of the chat API route (src/unnamed/part_002) -/

/-- One entry of the in-memory session map (line 23). -/
structure SessionEntry where
  context : ConversationContext
  lastActivity : Int
  createdAt : Int
deriving DecidableEq, Repr

/-- Absolute session TTL, 24 hours (line 24). -/
def SESSION_TTL : Int := 24 * 60 * 60 * 1000

/-- Inactivity TTL, 4 hours (line 25). -/
def SESSION_MAX_INACTIVE : Int := 4 * 60 * 60 * 1000

/-- The Map of sessions keyed by session id, as an association list. -/
abbrev SessionMap := List (String × SessionEntry)

/-- Map.get. -/
def sessionsGet (sessions : SessionMap) (sessionId : String) : Option SessionEntry :=
  (sessions.find? (fun p => p.1 == sessionId)).map Prod.snd

/-- Map.delete. -/
def sessionsDelete (sessions : SessionMap) (sessionId : String) : SessionMap :=
  sessions.filter (fun p => p.1 != sessionId)

/-- The session read path of the POST handler (part_002 lines 180-200):
Map.get followed by the lazy expiry recheck, which deletes the entry and
yields null when the absolute TTL or the inactivity TTL is exceeded at the
time of the request; the rest of the request then sees no stored context.
Returns the visible entry and the updated map. -/
def readSessionChecked (sessions : SessionMap) (sessionId : String) (now : Int) :
    Option SessionEntry × SessionMap :=
  match sessionsGet sessions sessionId with
  | none => (none, sessions)
  | some entry =>
    let isExpired := decide (now - entry.createdAt > SESSION_TTL)
    let isInactive := decide (now - entry.lastActivity > SESSION_MAX_INACTIVE)
    if isExpired || isInactive then (none, sessionsDelete sessions sessionId)
    else (some entry, sessions)

/-- One pass of the hourly background sweep (part_002 lines 639-656). -/
def sweepSessions (sessions : SessionMap) (now : Int) : SessionMap :=
  sessions.filter (fun p =>
    !(decide (now - p.2.createdAt > SESSION_TTL)
      || decide (now - p.2.lastActivity > SESSION_MAX_INACTIVE)))

/-- The CalendarConfig invariant stated by the specification:
advanceBookingDays is nonnegative and maxBookingDays dominates it. -/
def configInvariant (c : CalendarConfig) : Prop :=
  0 ≤ c.advanceBookingDays ∧ c.advanceBookingDays ≤ c.maxBookingDays

/-! ## Lemmas about the slot generation loop -/

/-- Every slot emitted by the loop starts no earlier than the loop cursor. -/
theorem slotLoop_start_le {dayEnd duration slotInterval : Int} {events : List CalendarEvent}
    (hI : 0 ≤ slotInterval) :
    ∀ (fuel : Nat) (t : Int), ∀ sl ∈ slotLoop dayEnd duration slotInterval events fuel t,
      t ≤ sl.start := by
  intro fuel
  induction fuel with
  | zero => intro t sl hsl; simp [slotLoop] at hsl
  | succ n ih =>
    intro t sl hsl
    simp only [slotLoop] at hsl
    split at hsl
    · rcases List.mem_cons.mp hsl with h | h
      · subst h; simp
      · have h2 := ih (t + slotInterval * 60000) sl h
        omega
    · simp at hsl

/-- Every slot emitted by the loop ends exactly duration minutes after its
start and no later than the closing bound, by the loop guard. -/
theorem slotLoop_end_spec {dayEnd duration slotInterval : Int} {events : List CalendarEvent} :
    ∀ (fuel : Nat) (t : Int), ∀ sl ∈ slotLoop dayEnd duration slotInterval events fuel t,
      sl.«end» = sl.start + duration * 60000 ∧ sl.«end» ≤ dayEnd := by
  intro fuel
  induction fuel with
  | zero => intro t sl hsl; simp [slotLoop] at hsl
  | succ n ih =>
    intro t sl hsl
    simp only [slotLoop] at hsl
    split at hsl
    next hguard =>
      rcases List.mem_cons.mp hsl with h | h
      · subst h; exact ⟨rfl, hguard⟩
      · exact ih _ sl h
    next => simp at hsl

/-- Every slot emitted by the loop records exactly the conflicts of
findConflicts over its own interval, and is available iff that list is
empty. -/
theorem slotLoop_conflicts_spec {dayEnd duration slotInterval : Int}
    {events : List CalendarEvent} :
    ∀ (fuel : Nat) (t : Int), ∀ sl ∈ slotLoop dayEnd duration slotInterval events fuel t,
      sl.conflictsWith = findConflicts sl.start sl.«end» events
        ∧ (sl.available = true ↔ sl.conflictsWith = []) := by
  intro fuel
  induction fuel with
  | zero => intro t sl hsl; simp [slotLoop] at hsl
  | succ n ih =>
    intro t sl hsl
    simp only [slotLoop] at hsl
    split at hsl
    · rcases List.mem_cons.mp hsl with h | h
      · subst h
        refine ⟨rfl, ?_⟩
        simp [List.length_eq_zero]
      · exact ih _ sl h
    · simp at hsl

/-- The emitted slots are strictly ascending by start time when the step is
positive. -/
theorem slotLoop_pairwise {dayEnd duration slotInterval : Int} {events : List CalendarEvent}
    (hI : 0 < slotInterval) :
    ∀ (fuel : Nat) (t : Int),
      (slotLoop dayEnd duration slotInterval events fuel t).Pairwise
        (fun a b => a.start < b.start) := by
  intro fuel
  induction fuel with
  | zero => intro t; simp [slotLoop]
  | succ n ih =>
    intro t
    simp only [slotLoop]
    split
    · refine List.Pairwise.cons ?_ (ih _)
      intro b hb
      have hble := slotLoop_start_le (le_of_lt hI) n (t + slotInterval * 60000) b hb
      show t < b.start
      omega
    · exact List.Pairwise.nil

/-- The loop result does not depend on the fuel once the fuel dominates the
remaining iteration count: the source while loop terminates. -/
theorem slotLoop_congr {dayEnd duration slotInterval : Int} {events : List CalendarEvent}
    (hI : 0 < slotInterval) :
    ∀ (f g : Nat) (t : Int),
      (dayEnd - duration * 60000 - t + 1).toNat ≤ f →
      (dayEnd - duration * 60000 - t + 1).toNat ≤ g →
      slotLoop dayEnd duration slotInterval events f t
        = slotLoop dayEnd duration slotInterval events g t := by
  intro f
  induction f with
  | zero =>
    intro g t hf hg
    have hguard : ¬(t + duration * 60000 ≤ dayEnd) := by omega
    cases g with
    | zero => rfl
    | succ m => simp only [slotLoop]; rw [if_neg hguard]
  | succ n ih =>
    intro g t hf hg
    cases g with
    | zero =>
      have hguard : ¬(t + duration * 60000 ≤ dayEnd) := by omega
      simp only [slotLoop]; rw [if_neg hguard]
    | succ m =>
      simp only [slotLoop]
      by_cases hguard : t + duration * 60000 ≤ dayEnd
      · rw [if_pos hguard, if_pos hguard]
        have hrec := ih m (t + slotInterval * 60000) (by omega) (by omega)
        rw [hrec]
      · rw [if_neg hguard, if_neg hguard]

/-- Membership in findConflicts is exactly strict interval overlap of some
event with the given id. -/
theorem mem_findConflicts {slotStart slotEnd : Int} {events : List CalendarEvent}
    {eventId : String} :
    eventId ∈ findConflicts slotStart slotEnd events
      ↔ ∃ e, e ∈ events ∧ e.id = eventId ∧ slotStart < e.«end» ∧ slotEnd > e.start := by
  simp only [findConflicts, List.mem_map, List.mem_filter, decide_eq_true_eq]
  constructor
  · rintro ⟨e, ⟨he, hov⟩, hid⟩; exact ⟨e, he, hid, hov⟩
  · rintro ⟨e, he, hid, hov⟩; exact ⟨e, ⟨he, hov⟩, hid⟩

/-- For a request whose date-time parses, validateBookingRequest can only
report an invalid result or throw the RangeError of the weekday lookup; it
never returns a valid result on such a request, because the weekday
computation of line 922 runs before the remaining checks and throws for
every valid time value. -/
theorem validateBookingRequest_parseable_never_valid (config : CalendarConfig) (nowMs : Int)
    (request : BookingRequest) (v : Int)
    (hparse : jsDateFromParts request.date request.time = some v) :
    validateBookingRequest config nowMs request = .error .rangeError
      ∨ ∃ msg, validateBookingRequest config nowMs request
          = .ok { valid := false, error := some msg } := by
  simp only [validateBookingRequest, hparse]
  split
  · exact Or.inr ⟨_, rfl⟩
  · split
    · exact Or.inr ⟨_, rfl⟩
    · exact Or.inl rfl

/-! ## Claim theorems for the calendar service -/

/-- C1: the claim says createBooking succeeds only when no existing confirmed
event overlaps the requested window and that this conflict recheck happens
inside createBooking itself. The code has no such recheck: createBooking
consults no event at all (its embedding takes no event input because the
source function reads none). For every request whose date-time parses it can
never even succeed, since validateBookingRequest either reports a window
failure or throws the weekday RangeError, which the catch block converts into
the generic technical failure; the second conjunct evaluates a concrete
in-window request to that technical failure. The one reachable success path
needs an unparseable request date together with a businessHours entry keyed
by the string Invalid Date: the third conjunct shows such a booking succeed
with a mock event id, again without any event being consulted. -/
theorem createBooking_no_conflict_recheck :
    (∀ (s : CalendarService) (nowMs : Int) (randSuffix : String) (request : BookingRequest)
        (v : Int), jsDateFromParts request.date request.time = some v →
      (createBooking s nowMs randSuffix request).success = false)
    ∧ createBooking (mkCalendarService {}) 0 ("r1")
        { date := "1970-01-05", time := "10:00", duration := 60, title := "Consultation",
          description := none, clientEmail := none, clientPhone := none,
          serviceType := "consultation" }
        = { success := false, eventId := none, error := some technicalErrorMsg }
    ∧ createBooking
        (mkCalendarService
          { businessHours := some [("Invalid Date", ⟨some "09:00", some "18:00"⟩)] })
        0 ("r1")
        { date := "x", time := "10:00", duration := 60, title := "Consultation",
          description := none, clientEmail := none, clientPhone := none,
          serviceType := "consultation" }
        = { success := true, eventId := some ("mock_0_r1"), error := none } := by
  refine ⟨?_, by decide, by decide⟩
  intro s nowMs randSuffix request v hparse
  rcases validateBookingRequest_parseable_never_valid s.config nowMs request v hparse
    with h | ⟨msg, h⟩ <;> simp [createBooking, h]

/-- C2: the claim says getAvailableSlots returns the empty sequence for a
closed day and never raises. In the code the weekday lookup of line 744
passes the invalid option value lowercase to toLocaleDateString, which throws
a RangeError for every parseable date string before the business hours are
even read, so no closed (or open) day ever yields a sequence: the first
conjunct proves this for every service state, event list and parameters, and
the second evaluates the closed sunday 2026-10-18 of the default
configuration to that RangeError. The remaining conjuncts pin the only
non-RangeError behaviours, both off the claim: an unparseable date yields the
weekday string Invalid Date, whose business-hours lookup throws a TypeError
under the default configuration, and returns the empty list without error
only under a configuration keyed by that very string. -/
theorem getAvailableSlots_rangeError_on_valid_dates :
    (∀ (s : CalendarService) (events : List CalendarEvent) (date : String)
        (duration slotInterval : Int) (v : Int),
      jsDateOnly date = some v →
      getAvailableSlots s events date duration slotInterval = .error .rangeError)
    ∧ getAvailableSlots (mkCalendarService {}) [] ("2026-10-18") 60 30
        = .error .rangeError
    ∧ getAvailableSlots (mkCalendarService {}) [] ("x") 60 30 = .error .typeError
    ∧ getAvailableSlots
        (mkCalendarService
          { businessHours := some [("Invalid Date", ⟨some "09:00", some "18:00"⟩)] })
        [] ("x") 60 30 = .ok [] := by
  refine ⟨?_, by decide, by decide, by decide⟩
  intro s events date duration slotInterval v hparse
  simp only [getAvailableSlots, hparse]
  rfl

/-- C3: the first two policy checks run in source order with first-failure
reporting and an inclusive lower boundary: a request before now plus
advanceBookingDays is reported with the advance-window error whatever its
business hours, a request beyond now plus maxBookingDays with the horizon
error; but a request inside the window never reaches checks three and four:
the weekday computation of line 922 throws a RangeError first, so the
closed-day and out-of-hours failures of the claim are unreachable. The last
two conjuncts evaluate the code at concrete requests: one day too early
reports the window error, and exactly the minimum lead time passes the window
check only to hit the RangeError. -/
theorem validateBookingRequest_window_first :
    (∀ (config : CalendarConfig) (nowMs : Int) (request : BookingRequest) (v : Int),
      jsDateFromParts request.date request.time = some v →
      v < nowMs + config.advanceBookingDays * 24 * 60 * 60 * 1000 →
      validateBookingRequest config nowMs request
        = .ok { valid := false, error := some (advanceErrorMsg config.advanceBookingDays) })
    ∧ (∀ (config : CalendarConfig) (nowMs : Int) (request : BookingRequest) (v : Int),
        jsDateFromParts request.date request.time = some v →
        nowMs + config.advanceBookingDays * 24 * 60 * 60 * 1000 ≤ v →
        nowMs + config.maxBookingDays * 24 * 60 * 60 * 1000 < v →
        validateBookingRequest config nowMs request
          = .ok { valid := false, error := some (horizonErrorMsg config.maxBookingDays) })
    ∧ (∀ (config : CalendarConfig) (nowMs : Int) (request : BookingRequest) (v : Int),
        jsDateFromParts request.date request.time = some v →
        nowMs + config.advanceBookingDays * 24 * 60 * 60 * 1000 ≤ v →
        v ≤ nowMs + config.maxBookingDays * 24 * 60 * 60 * 1000 →
        validateBookingRequest config nowMs request = .error .rangeError)
    ∧ validateBookingRequest DEFAULT_CONFIG 0
        { date := "1970-01-01", time := "00:00", duration := 60, title := "t",
          description := none, clientEmail := none, clientPhone := none,
          serviceType := "consultation" }
        = .ok { valid := false, error := some (advanceErrorMsg 1) }
    ∧ validateBookingRequest DEFAULT_CONFIG 0
        { date := "1970-01-02", time := "00:00", duration := 60, title := "t",
          description := none, clientEmail := none, clientPhone := none,
          serviceType := "consultation" }
        = .error .rangeError := by
  refine ⟨?_, ?_, ?_, by decide, by decide⟩
  · intro config nowMs request v hparse hlt
    simp only [validateBookingRequest, hparse, jsLt, decide_eq_true_eq]
    rw [if_pos hlt]
    rfl
  · intro config nowMs request v hparse hge hgt
    simp only [validateBookingRequest, hparse, jsLt, jsGt, decide_eq_true_eq]
    rw [if_neg (by omega), if_pos (by omega)]
    rfl
  · intro config nowMs request v hparse hge hle
    simp only [validateBookingRequest, hparse, jsLt, jsGt, decide_eq_true_eq]
    rw [if_neg (by omega), if_neg (by omega)]
    rfl

/-- C4: the slot generation loop of getAvailableSlots terminates for every
positive duration and interval (the result is fuel-independent past the
bound used by generateSlots), every generated slot lies fully inside the
day window with end equal to start plus the duration, and the slots are
strictly ascending by start time. The last conjunct records that
getAvailableSlots itself never reaches this loop for a parseable date: the
concrete call throws the weekday RangeError. -/
theorem generateSlots_total_bounded_ascending :
    (∀ (dayStart dayEnd duration slotInterval : Int) (events : List CalendarEvent),
      0 < duration → 0 < slotInterval →
        ((∀ fuel, (dayEnd - dayStart).toNat + 1 ≤ fuel →
            slotLoop dayEnd duration slotInterval events fuel dayStart
              = generateSlots dayStart dayEnd duration slotInterval events)
          ∧ (∀ sl ∈ generateSlots dayStart dayEnd duration slotInterval events,
              dayStart ≤ sl.start ∧ sl.«end» = sl.start + duration * 60000
                ∧ sl.«end» ≤ dayEnd)
          ∧ (generateSlots dayStart dayEnd duration slotInterval events).Pairwise
              (fun a b => a.start < b.start)))
    ∧ getAvailableSlots (mkCalendarService {}) [] ("2026-10-17") 60 30
        = .error .rangeError := by
  constructor
  · intro dayStart dayEnd duration slotInterval events hD hI
    refine ⟨?_, ?_, ?_⟩
    · intro fuel hfuel
      exact slotLoop_congr hI fuel ((dayEnd - dayStart).toNat + 1) dayStart
        (by omega) (by omega)
    · intro sl h
      exact ⟨slotLoop_start_le (le_of_lt hI) _ _ sl h, slotLoop_end_spec _ _ sl h⟩
    · exact slotLoop_pairwise hI _ _
  · decide

/-- C5: an event id is in the conflict list of a slot interval exactly when
some supplied event with that id strictly overlaps it (slotStart below the
event end and slotEnd above the event start, so touching boundaries never
conflict); every generated slot stores exactly those conflicts and is
available iff the list is empty; and in the example day 09:00-18:00 with one
event 14:00-15:00, duration 60 and interval 30, the slots starting 13:30,
14:00 and 14:30 are unavailable while the 09:00 slot is available. -/
theorem findConflicts_strict_overlap :
    (∀ (slotStart slotEnd : Int) (events : List CalendarEvent) (eventId : String),
      eventId ∈ findConflicts slotStart slotEnd events
        ↔ ∃ e, e ∈ events ∧ e.id = eventId ∧ slotStart < e.«end» ∧ slotEnd > e.start)
    ∧ (∀ (dayStart dayEnd duration slotInterval : Int) (events : List CalendarEvent),
        ∀ sl ∈ generateSlots dayStart dayEnd duration slotInterval events,
          sl.conflictsWith = findConflicts sl.start sl.«end» events
            ∧ (sl.available = true ↔ sl.conflictsWith = []))
    ∧ ((generateSlots (540 * 60000) (1080 * 60000) 60 30
          [{ id := "evt1", title := "Rendez-vous client", start := 840 * 60000,
             «end» := 900 * 60000, status := .confirmed, source := .internal }]).find?
          (fun sl => sl.start == 540 * 60000)).map TimeSlot.available = some true
    ∧ ((generateSlots (540 * 60000) (1080 * 60000) 60 30
          [{ id := "evt1", title := "Rendez-vous client", start := 840 * 60000,
             «end» := 900 * 60000, status := .confirmed, source := .internal }]).find?
          (fun sl => sl.start == 810 * 60000)).map TimeSlot.available = some false
    ∧ ((generateSlots (540 * 60000) (1080 * 60000) 60 30
          [{ id := "evt1", title := "Rendez-vous client", start := 840 * 60000,
             «end» := 900 * 60000, status := .confirmed, source := .internal }]).find?
          (fun sl => sl.start == 840 * 60000)).map TimeSlot.available = some false
    ∧ ((generateSlots (540 * 60000) (1080 * 60000) 60 30
          [{ id := "evt1", title := "Rendez-vous client", start := 840 * 60000,
             «end» := 900 * 60000, status := .confirmed, source := .internal }]).find?
          (fun sl => sl.start == 870 * 60000)).map TimeSlot.available = some false := by
  refine ⟨fun a b ev i => mem_findConflicts,
    fun dayStart dayEnd duration slotInterval events sl h =>
      slotLoop_conflicts_spec _ _ sl h,
    by decide, by decide, by decide, by decide⟩

/-- C9 counterexample: updateConfig with a partial object raising only
advanceBookingDays to 100 leaves maxBookingDays at the default 60, so the
invariant maxBookingDays at least advanceBookingDays is violated after the
update. -/
theorem updateConfig_breaks_invariant :
    ((mkCalendarService {}).updateConfig { advanceBookingDays := some 100 }).config.advanceBookingDays = 100
    ∧ ((mkCalendarService {}).updateConfig { advanceBookingDays := some 100 }).config.maxBookingDays = 60
    ∧ ¬configInvariant ((mkCalendarService {}).updateConfig { advanceBookingDays := some 100 }).config := by
  refine ⟨rfl, rfl, ?_⟩
  intro h
  have h2 := h.2
  simp [mkCalendarService, CalendarService.updateConfig, mergeConfig, DEFAULT_CONFIG] at h2

/-- C9 amended: the invariant holds for the configuration built by the
constructor from the empty partial (the default configuration), every
operation that does not touch the configuration preserves it exactly
(configureGoogleCalendar, configureOutlookCalendar, getConfig), and
updateConfig preserves the invariant whenever its partial argument touches
neither advanceBookingDays nor maxBookingDays; the counterexample shows the
unvalidated shallow merge can break it otherwise. -/
theorem configInvariant_preserved_by_non_window_updates :
    configInvariant (mkCalendarService {}).config
    ∧ (∀ (s : CalendarService) (calendarId : String),
        (s.configureGoogleCalendar calendarId).config = s.config)
    ∧ (∀ (s : CalendarService) (calendarId : String),
        (s.configureOutlookCalendar calendarId).config = s.config)
    ∧ (∀ s : CalendarService, s.getConfig = s.config)
    ∧ (∀ (s : CalendarService) (p : PartialCalendarConfig),
        configInvariant s.config → p.advanceBookingDays = none → p.maxBookingDays = none →
        configInvariant (s.updateConfig p).config) := by
  refine ⟨⟨by decide, by decide⟩, fun s c => rfl, fun s c => rfl, fun s => rfl, ?_⟩
  intro s p hinv hadv hmax
  constructor
  · simpa [CalendarService.updateConfig, mergeConfig, hadv] using hinv.1
  · simpa [CalendarService.updateConfig, mergeConfig, hadv, hmax] using hinv.2

/-! ## Lemmas about slot extraction -/

/-- A string built from a nonempty character list is not the empty string. -/
theorem stringMk_ne_empty {cs : List Char} (h : cs ≠ []) : String.mk cs ≠ "" := by
  intro he
  apply h
  have h2 := congrArg String.data he
  simpa using h2

/-- Every entity produced by extractEntitiesFromMessage carries a nonempty
value: the date values are fixed keywords and a time value always contains
the colon separator. -/
theorem extractEntities_value_ne_empty (message : String) :
    ∀ e ∈ extractEntitiesFromMessage message, e.value ≠ "" := by
  intro e he
  simp only [extractEntitiesFromMessage, List.mem_append, List.mem_map, or_assoc] at he
  rcases he with he | he | he | he | he | he | he | ⟨m, hm, rfl⟩
  all_goals try (split at he <;> simp_all)
  · apply stringMk_ne_empty
    cases h1 : m.1 <;> simp

/-- The entities of a detected intent all carry nonempty values. -/
theorem detectIntent_entities_ne_empty (message : String) :
    ∀ e ∈ (detectIntent message).entities, e.value ≠ "" := by
  intro e he
  simp only [detectIntent] at he
  split_ifs at he
  all_goals first
    | exact extractEntities_value_ne_empty message e he
    | simp at he

/-- applyEntity writes at most the date and time fields. -/
theorem applyEntity_keeps (acc : Slots) (e : Entity) :
    (applyEntity acc e).duration = acc.duration
      ∧ (applyEntity acc e).serviceType = acc.serviceType
      ∧ (applyEntity acc e).clientName = acc.clientName
      ∧ (applyEntity acc e).clientEmail = acc.clientEmail
      ∧ (applyEntity acc e).clientPhone = acc.clientPhone
      ∧ (applyEntity acc e).location = acc.location
      ∧ (applyEntity acc e).notes = acc.notes := by
  unfold applyEntity
  split
  · exact ⟨rfl, rfl, rfl, rfl, rfl, rfl, rfl⟩
  · split
    · exact ⟨rfl, rfl, rfl, rfl, rfl, rfl, rfl⟩
    · exact ⟨rfl, rfl, rfl, rfl, rfl, rfl, rfl⟩

/-- The entity fold writes at most the date and time fields. -/
theorem foldl_applyEntity_untouched (entities : List Entity) :
    ∀ acc : Slots,
      (entities.foldl applyEntity acc).duration = acc.duration
        ∧ (entities.foldl applyEntity acc).serviceType = acc.serviceType
        ∧ (entities.foldl applyEntity acc).clientName = acc.clientName
        ∧ (entities.foldl applyEntity acc).clientEmail = acc.clientEmail
        ∧ (entities.foldl applyEntity acc).clientPhone = acc.clientPhone
        ∧ (entities.foldl applyEntity acc).location = acc.location
        ∧ (entities.foldl applyEntity acc).notes = acc.notes := by
  induction entities with
  | nil => intro acc; exact ⟨rfl, rfl, rfl, rfl, rfl, rfl, rfl⟩
  | cons e es ih =>
    intro acc
    simp only [List.foldl_cons]
    have h1 := ih (applyEntity acc e)
    have h2 := applyEntity_keeps acc e
    exact ⟨h1.1.trans h2.1, h1.2.1.trans h2.2.1, h1.2.2.1.trans h2.2.2.1,
      h1.2.2.2.1.trans h2.2.2.2.1, h1.2.2.2.2.1.trans h2.2.2.2.2.1,
      h1.2.2.2.2.2.1.trans h2.2.2.2.2.2.1, h1.2.2.2.2.2.2.trans h2.2.2.2.2.2.2⟩

/-- A date field produced by the entity fold holds a value of some entity or
the value it started with. -/
theorem foldl_applyEntity_date_ne (entities : List Entity)
    (hvals : ∀ e ∈ entities, e.value ≠ "") :
    ∀ acc : Slots, (∀ v, acc.date = some v → v ≠ "") →
      ∀ v, (entities.foldl applyEntity acc).date = some v → v ≠ "" := by
  induction entities with
  | nil => intro acc hacc; exact hacc
  | cons e es ih =>
    intro acc hacc
    simp only [List.foldl_cons]
    refine ih (fun x hx => hvals x (List.mem_cons_of_mem _ hx)) (applyEntity acc e) ?_
    intro v hv
    unfold applyEntity at hv
    split at hv
    · have hv2 : e.value = v := by simpa using hv
      subst hv2
      exact hvals e (List.mem_cons_self e es)
    · split at hv
      · exact hacc v hv
      · exact hacc v hv

/-- A time field produced by the entity fold holds a value of some entity or
the value it started with. -/
theorem foldl_applyEntity_time_ne (entities : List Entity)
    (hvals : ∀ e ∈ entities, e.value ≠ "") :
    ∀ acc : Slots, (∀ v, acc.time = some v → v ≠ "") →
      ∀ v, (entities.foldl applyEntity acc).time = some v → v ≠ "" := by
  induction entities with
  | nil => intro acc hacc; exact hacc
  | cons e es ih =>
    intro acc hacc
    simp only [List.foldl_cons]
    refine ih (fun x hx => hvals x (List.mem_cons_of_mem _ hx)) (applyEntity acc e) ?_
    intro v hv
    unfold applyEntity at hv
    split at hv
    · exact hacc v hv
    · split at hv
      · have hv2 : e.value = v := by simpa using hv
        subst hv2
        exact hvals e (List.mem_cons_self e es)
      · exact hacc v hv

/-- A successful email match is a nonempty character list. -/
theorem matchEmailAt_ne_nil : ∀ {cs m : List Char}, matchEmailAt cs = some m → m ≠ [] := by
  intro cs m h hm
  subst hm
  simp only [matchEmailAt] at h
  split at h
  · split at h
    · split at h
      · simp at h
      · simp at h
    · simp at h
  · simp at h

/-- A successful phone match is a nonempty character list. -/
theorem matchPhoneAt_ne_nil : ∀ {cs m : List Char}, matchPhoneAt cs = some m → m ≠ [] := by
  intro cs m h hm
  subst hm
  simp only [matchPhoneAt] at h
  split at h
  · split at h
    · cases htd : takeExactDigits 8 ‹List Char› <;> simp_all
    · simp at h
  · split at h
    · cases htd : takeExactDigits 8 ‹List Char› <;> simp_all
    · simp at h
  · simp at h

/-- The first email match of a message is never the empty string. -/
theorem emailScan_ne_empty : ∀ (cs : List Char) (v : String), emailScan cs = some v → v ≠ "" := by
  intro cs
  induction cs with
  | nil => intro v h; simp [emailScan] at h
  | cons c cs ih =>
    intro v h
    cases hm : matchEmailAt (c :: cs) with
    | some m =>
      simp only [emailScan, hm, Option.some.injEq] at h
      subst h
      exact stringMk_ne_empty (matchEmailAt_ne_nil hm)
    | none =>
      simp only [emailScan, hm] at h
      exact ih v h

/-- The first phone match of a message is never the empty string. -/
theorem phoneScan_ne_empty : ∀ (cs : List Char) (v : String), phoneScan cs = some v → v ≠ "" := by
  intro cs
  induction cs with
  | nil => intro v h; simp [phoneScan] at h
  | cons c cs ih =>
    intro v h
    cases hm : matchPhoneAt (c :: cs) with
    | some m =>
      simp only [phoneScan, hm, Option.some.injEq] at h
      subst h
      exact stringMk_ne_empty (matchPhoneAt_ne_nil hm)
    | none =>
      simp only [phoneScan, hm] at h
      exact ih v h

/-- extractSlots on the intent detected from the same message: the five
fields it cannot set stay none and each of the four extractable fields is
absent or a nonempty string. -/
theorem extractSlots_spec (message : String) :
    ((extractSlots (some (detectIntent message)) message).duration = none
      ∧ (extractSlots (some (detectIntent message)) message).serviceType = none
      ∧ (extractSlots (some (detectIntent message)) message).clientName = none
      ∧ (extractSlots (some (detectIntent message)) message).location = none
      ∧ (extractSlots (some (detectIntent message)) message).notes = none)
    ∧ (∀ v, (extractSlots (some (detectIntent message)) message).date = some v → v ≠ "")
    ∧ (∀ v, (extractSlots (some (detectIntent message)) message).time = some v → v ≠ "")
    ∧ (∀ v, (extractSlots (some (detectIntent message)) message).clientEmail = some v → v ≠ "")
    ∧ (∀ v, (extractSlots (some (detectIntent message)) message).clientPhone = some v → v ≠ "") := by
  have hunt := foldl_applyEntity_untouched (detectIntent message).entities ({} : Slots)
  have hdate := foldl_applyEntity_date_ne (detectIntent message).entities
    (detectIntent_entities_ne_empty message) ({} : Slots) (fun v hv => by simp at hv)
  have htime := foldl_applyEntity_time_ne (detectIntent message).entities
    (detectIntent_entities_ne_empty message) ({} : Slots) (fun v hv => by simp at hv)
  cases hem : emailScan message.toList with
  | some email =>
    cases hph : phoneScan message.toList with
    | some phone =>
      simp only [extractSlots, hem, hph]
      refine ⟨⟨hunt.1, hunt.2.1, hunt.2.2.1, hunt.2.2.2.2.2.1, hunt.2.2.2.2.2.2⟩,
        hdate, htime, ?_, ?_⟩
      · intro v hv
        have h2 : email = v := by simpa using hv
        subst h2
        exact emailScan_ne_empty _ _ hem
      · intro v hv
        have h2 : phone = v := by simpa using hv
        subst h2
        exact phoneScan_ne_empty _ _ hph
    | none =>
      simp only [extractSlots, hem, hph]
      refine ⟨⟨hunt.1, hunt.2.1, hunt.2.2.1, hunt.2.2.2.2.2.1, hunt.2.2.2.2.2.2⟩,
        hdate, htime, ?_, ?_⟩
      · intro v hv
        have h2 : email = v := by simpa using hv
        subst h2
        exact emailScan_ne_empty _ _ hem
      · intro v hv
        rw [hunt.2.2.2.2.1] at hv
        simp at hv
  | none =>
    cases hph : phoneScan message.toList with
    | some phone =>
      simp only [extractSlots, hem, hph]
      refine ⟨⟨hunt.1, hunt.2.1, hunt.2.2.1, hunt.2.2.2.2.2.1, hunt.2.2.2.2.2.2⟩,
        hdate, htime, ?_, ?_⟩
      · intro v hv
        rw [hunt.2.2.2.1] at hv
        simp at hv
      · intro v hv
        have h2 : phone = v := by simpa using hv
        subst h2
        exact phoneScan_ne_empty _ _ hph
    | none =>
      simp only [extractSlots, hem, hph]
      refine ⟨⟨hunt.1, hunt.2.1, hunt.2.2.1, hunt.2.2.2.2.2.1, hunt.2.2.2.2.2.2⟩,
        hdate, htime, ?_, ?_⟩
      · intro v hv
        rw [hunt.2.2.2.1] at hv
        simp at hv
      · intro v hv
        rw [hunt.2.2.2.2.1] at hv
        simp at hv

/-- The spread merge keeps a present field present. -/
theorem orElse_keeps_isSome {α : Type} (o n : Option α) (h : o.isSome = true) :
    (n.orElse fun _ => o).isSome = true := by
  cases n <;> simp [Option.orElse, h]

/-! ## Claim theorems for the conversation engine and the session store -/

/-- C7: one processMessage turn replaces the accumulated slots by the spread
merge of the freshly extracted partial slots over them; the merge never
clears a field that was set, so a slot once filled stays filled; the five
fields extractSlots cannot set come back unchanged; and each of the four
extractable fields is either kept as it was or overwritten with a nonempty
extracted value. -/
theorem processMessage_slots_monotone :
    ∀ (ctx : ConversationContext) (userMessage : String) (ts : Int),
      ((processMessage ctx userMessage ts).context.extractedSlots
          = mergeSlots ctx.extractedSlots
              (extractSlots (some (detectIntent userMessage)) userMessage))
      ∧ (∀ older newer : Slots,
          (older.date.isSome = true → (mergeSlots older newer).date.isSome = true)
          ∧ (older.time.isSome = true → (mergeSlots older newer).time.isSome = true)
          ∧ (older.duration.isSome = true → (mergeSlots older newer).duration.isSome = true)
          ∧ (older.serviceType.isSome = true → (mergeSlots older newer).serviceType.isSome = true)
          ∧ (older.clientName.isSome = true → (mergeSlots older newer).clientName.isSome = true)
          ∧ (older.clientEmail.isSome = true → (mergeSlots older newer).clientEmail.isSome = true)
          ∧ (older.clientPhone.isSome = true → (mergeSlots older newer).clientPhone.isSome = true)
          ∧ (older.location.isSome = true → (mergeSlots older newer).location.isSome = true)
          ∧ (older.notes.isSome = true → (mergeSlots older newer).notes.isSome = true))
      ∧ ((processMessage ctx userMessage ts).context.extractedSlots.duration
            = ctx.extractedSlots.duration
          ∧ (processMessage ctx userMessage ts).context.extractedSlots.serviceType
            = ctx.extractedSlots.serviceType
          ∧ (processMessage ctx userMessage ts).context.extractedSlots.clientName
            = ctx.extractedSlots.clientName
          ∧ (processMessage ctx userMessage ts).context.extractedSlots.location
            = ctx.extractedSlots.location
          ∧ (processMessage ctx userMessage ts).context.extractedSlots.notes
            = ctx.extractedSlots.notes)
      ∧ (((processMessage ctx userMessage ts).context.extractedSlots.date
            = ctx.extractedSlots.date
          ∨ ∃ v, (processMessage ctx userMessage ts).context.extractedSlots.date = some v
              ∧ v ≠ "")
        ∧ ((processMessage ctx userMessage ts).context.extractedSlots.time
            = ctx.extractedSlots.time
          ∨ ∃ v, (processMessage ctx userMessage ts).context.extractedSlots.time = some v
              ∧ v ≠ "")
        ∧ ((processMessage ctx userMessage ts).context.extractedSlots.clientEmail
            = ctx.extractedSlots.clientEmail
          ∨ ∃ v, (processMessage ctx userMessage ts).context.extractedSlots.clientEmail = some v
              ∧ v ≠ "")
        ∧ ((processMessage ctx userMessage ts).context.extractedSlots.clientPhone
            = ctx.extractedSlots.clientPhone
          ∨ ∃ v, (processMessage ctx userMessage ts).context.extractedSlots.clientPhone = some v
              ∧ v ≠ "")) := by
  intro ctx userMessage ts
  have hspec := extractSlots_spec userMessage
  refine ⟨rfl, ?_, ?_, ?_⟩
  · intro older newer
    exact ⟨fun h => orElse_keeps_isSome _ _ h, fun h => orElse_keeps_isSome _ _ h,
      fun h => orElse_keeps_isSome _ _ h, fun h => orElse_keeps_isSome _ _ h,
      fun h => orElse_keeps_isSome _ _ h, fun h => orElse_keeps_isSome _ _ h,
      fun h => orElse_keeps_isSome _ _ h, fun h => orElse_keeps_isSome _ _ h,
      fun h => orElse_keeps_isSome _ _ h⟩
  · refine ⟨?_, ?_, ?_, ?_, ?_⟩
    · show (mergeSlots ctx.extractedSlots
        (extractSlots (some (detectIntent userMessage)) userMessage)).duration
          = ctx.extractedSlots.duration
      simp [mergeSlots, hspec.1.1, Option.orElse]
    · show (mergeSlots ctx.extractedSlots
        (extractSlots (some (detectIntent userMessage)) userMessage)).serviceType
          = ctx.extractedSlots.serviceType
      simp [mergeSlots, hspec.1.2.1, Option.orElse]
    · show (mergeSlots ctx.extractedSlots
        (extractSlots (some (detectIntent userMessage)) userMessage)).clientName
          = ctx.extractedSlots.clientName
      simp [mergeSlots, hspec.1.2.2.1, Option.orElse]
    · show (mergeSlots ctx.extractedSlots
        (extractSlots (some (detectIntent userMessage)) userMessage)).location
          = ctx.extractedSlots.location
      simp [mergeSlots, hspec.1.2.2.2.1, Option.orElse]
    · show (mergeSlots ctx.extractedSlots
        (extractSlots (some (detectIntent userMessage)) userMessage)).notes
          = ctx.extractedSlots.notes
      simp [mergeSlots, hspec.1.2.2.2.2, Option.orElse]
  · refine ⟨?_, ?_, ?_, ?_⟩
    · cases hx : (extractSlots (some (detectIntent userMessage)) userMessage).date with
      | none =>
        left
        show (mergeSlots ctx.extractedSlots
          (extractSlots (some (detectIntent userMessage)) userMessage)).date
            = ctx.extractedSlots.date
        simp [mergeSlots, hx, Option.orElse]
      | some v =>
        right
        refine ⟨v, ?_, hspec.2.1 v hx⟩
        show (mergeSlots ctx.extractedSlots
          (extractSlots (some (detectIntent userMessage)) userMessage)).date = some v
        simp [mergeSlots, hx, Option.orElse]
    · cases hx : (extractSlots (some (detectIntent userMessage)) userMessage).time with
      | none =>
        left
        show (mergeSlots ctx.extractedSlots
          (extractSlots (some (detectIntent userMessage)) userMessage)).time
            = ctx.extractedSlots.time
        simp [mergeSlots, hx, Option.orElse]
      | some v =>
        right
        refine ⟨v, ?_, hspec.2.2.1 v hx⟩
        show (mergeSlots ctx.extractedSlots
          (extractSlots (some (detectIntent userMessage)) userMessage)).time = some v
        simp [mergeSlots, hx, Option.orElse]
    · cases hx : (extractSlots (some (detectIntent userMessage)) userMessage).clientEmail with
      | none =>
        left
        show (mergeSlots ctx.extractedSlots
          (extractSlots (some (detectIntent userMessage)) userMessage)).clientEmail
            = ctx.extractedSlots.clientEmail
        simp [mergeSlots, hx, Option.orElse]
      | some v =>
        right
        refine ⟨v, ?_, hspec.2.2.2.1 v hx⟩
        show (mergeSlots ctx.extractedSlots
          (extractSlots (some (detectIntent userMessage)) userMessage)).clientEmail = some v
        simp [mergeSlots, hx, Option.orElse]
    · cases hx : (extractSlots (some (detectIntent userMessage)) userMessage).clientPhone with
      | none =>
        left
        show (mergeSlots ctx.extractedSlots
          (extractSlots (some (detectIntent userMessage)) userMessage)).clientPhone
            = ctx.extractedSlots.clientPhone
        simp [mergeSlots, hx, Option.orElse]
      | some v =>
        right
        refine ⟨v, ?_, hspec.2.2.2.2 v hx⟩
        show (mergeSlots ctx.extractedSlots
          (extractSlots (some (detectIntent userMessage)) userMessage)).clientPhone = some v
        simp [mergeSlots, hx, Option.orElse]

/-- C6 counterexample: on the very first message of a fresh session, when no
proposal has been made yet and nothing could have been confirmed, the engine
already emits a create_booking action; and when a phone contact is captured
without an email, a booking action is emitted with no confirmation action at
all (the code only tests clientEmail). -/
theorem determineActions_counterexample :
    (mkOrchestratorContext ("session-1") none).messages = []
    ∧ (processMessage (mkOrchestratorContext ("session-1") none)
        ("Je voudrais un RDV demain à 14h") 0).actions.any isCreateBooking = true
    ∧ (processMessage (mkOrchestratorContext ("session-1") none)
        ("RDV demain à 14h au 0612345678") 0).context.extractedSlots.clientPhone
        = some ("0612345678")
    ∧ (processMessage (mkOrchestratorContext ("session-1") none)
        ("RDV demain à 14h au 0612345678") 0).actions.any isCreateBooking = true
    ∧ (processMessage (mkOrchestratorContext ("session-1") none)
        ("RDV demain à 14h au 0612345678") 0).actions.any isConfirmationEmail = false := by
  decide

/-- C6 amended: a create_booking action is emitted iff the current intent is
prise_rdv and both required slots date and time are truthy, with no
confirmation condition of any kind; a send_confirmation_email action is
emitted iff additionally the clientEmail slot is truthy, so a captured phone
contact alone never yields a confirmation action. -/
theorem determineActions_emission_iff :
    ∀ ctx : ConversationContext,
      ((determineActions ctx).any isCreateBooking = true
        ↔ (currentIntentIsBooking ctx.currentIntent = true
            ∧ jsTruthyStr ctx.extractedSlots.date = true
            ∧ jsTruthyStr ctx.extractedSlots.time = true))
      ∧ ((determineActions ctx).any isConfirmationEmail = true
        ↔ (currentIntentIsBooking ctx.currentIntent = true
            ∧ jsTruthyStr ctx.extractedSlots.date = true
            ∧ jsTruthyStr ctx.extractedSlots.time = true
            ∧ jsTruthyStr ctx.extractedSlots.clientEmail = true)) := by
  intro ctx
  cases hI : currentIntentIsBooking ctx.currentIntent <;>
    cases hD : jsTruthyStr ctx.extractedSlots.date <;>
      cases hT : jsTruthyStr ctx.extractedSlots.time <;>
        cases hE : jsTruthyStr ctx.extractedSlots.clientEmail <;>
          simp [determineActions, hasAllRequiredSlots, hI, hD, hT, hE,
            isCreateBooking, isConfirmationEmail]

/-- C10: the time regex matches the bare number 2 in the booking message
"RDV demain pour 2 personnes", so the turn fills the time slot with the
fabricated time 2:00, the date slot with demain, and emits a create_booking
action for that time in the same turn. -/
theorem processMessage_fabricates_time_from_bare_number :
    (processMessage (mkOrchestratorContext ("session-1") none)
        ("RDV demain pour 2 personnes") 0).context.extractedSlots.date = some ("demain")
    ∧ (processMessage (mkOrchestratorContext ("session-1") none)
        ("RDV demain pour 2 personnes") 0).context.extractedSlots.time = some ("2:00")
    ∧ (processMessage (mkOrchestratorContext ("session-1") none)
        ("RDV demain pour 2 personnes") 0).actions
      = [Action.create_booking
          { date := some ("demain"), time := some ("2:00"), duration := 60,
            service := "consultation", clientEmail := none, clientPhone := none,
            notes := none }] := by
  decide

/-- C8: whenever the stored entry for a session id has outlived the absolute
TTL or the inactivity TTL at the time of a request, the read path of the POST
handler itself re-checks expiry: it returns no entry (the request proceeds as
a fresh session) and deletes the entry, independently of whether the
background sweep has run. -/
theorem readSessionChecked_expired_unreachable
    (sessions : SessionMap) (sessionId : String) (now : Int) (entry : SessionEntry)
    (hget : sessionsGet sessions sessionId = some entry)
    (hexp : SESSION_TTL < now - entry.createdAt
      ∨ SESSION_MAX_INACTIVE < now - entry.lastActivity) :
    (readSessionChecked sessions sessionId now).1 = none
      ∧ sessionsGet (readSessionChecked sessions sessionId now).2 sessionId = none := by
  have hcond : (decide (now - entry.createdAt > SESSION_TTL)
      || decide (now - entry.lastActivity > SESSION_MAX_INACTIVE)) = true := by
    rcases hexp with h | h <;> simp [h]
  have hpair : readSessionChecked sessions sessionId now
      = (none, sessionsDelete sessions sessionId) := by
    simp [readSessionChecked, hget, hcond]
  refine ⟨by rw [hpair], ?_⟩
  rw [hpair]
  show sessionsGet (sessionsDelete sessions sessionId) sessionId = none
  simp only [sessionsGet, sessionsDelete]
  have hfind : List.find? (fun p => p.1 == sessionId)
      (List.filter (fun p => p.1 != sessionId) sessions) = none := by
    rw [List.find?_eq_none]
    intro p hp
    have hne := (List.mem_filter.mp hp).2
    simpa using hne
  rw [hfind]
  rfl

/-- Witness for C8: a concrete store holding one entry created at time 0 and
read 24 hours and one millisecond later is invisible and deleted. -/
theorem readSessionChecked_expired_unreachable_witness :
    (readSessionChecked
        [("s1", { context := mkOrchestratorContext ("s1") none,
                  lastActivity := 0, createdAt := 0 })] ("s1") 86400001).1 = none
      ∧ sessionsGet (readSessionChecked
          [("s1", { context := mkOrchestratorContext ("s1") none,
                    lastActivity := 0, createdAt := 0 })] ("s1") 86400001).2 ("s1") = none :=
  readSessionChecked_expired_unreachable
    [("s1", { context := mkOrchestratorContext ("s1") none, lastActivity := 0, createdAt := 0 })]
    ("s1") 86400001
    { context := mkOrchestratorContext ("s1") none, lastActivity := 0, createdAt := 0 }
    (by decide) (Or.inl (by decide))

end Autobooker
